import Mathlib

/-!
Shallow embedding of the media-container publishing core of the Threads SDK
(`src/threads`): the container status decoder (`models/media.py`,
`constants.py`), the wait-for-ready poller and publish orchestration
(`_sync/posts.py`, `_base/posts.py`), the validators
(`_utils/validators.py`) and the sliding-window rate limiter
(`_utils/rate_limit.py`).

Conventions of the embedding:
* Python floats used as times/durations are modelled as rationals.
* Python truthiness of `str | None` values is `pyTruthy` below
  (`None` and the empty string are falsy).
* Raised exceptions are modelled as `Except` error values.
* The HTTP transport is an oracle (`Transport`): the outcomes of the four
  remote calls an orchestration run may make are given up front, and every
  operation additionally returns the list of remote calls it issued.
* Wall-clock model for the poller: status fetches take no time and each
  `time.sleep(poll_interval)` advances the clock by exactly
  `poll_interval`, so the `elapsed` read at the k-th loop iteration is
  `k * poll_interval`.
-/

namespace Threads

/-- The closed `ContainerStatus` string enumeration of `constants.py`. -/
inductive ContainerStatus where
  | expired
  | error
  | finished
  | in_progress
  | published
deriving DecidableEq, Repr

/-- Value-based lookup of a raw status string in the `ContainerStatus`
string enumeration, as pydantic performs when validating the `status`
field: `none` models the `ValidationError` raised on an unrecognized
value. -/
def ContainerStatus.ofString : String → Option ContainerStatus
  | "EXPIRED" => some .expired
  | "ERROR" => some .error
  | "FINISHED" => some .finished
  | "IN_PROGRESS" => some .in_progress
  | "PUBLISHED" => some .published
  | _ => none

/-- The `MediaContainerStatus` pydantic model of `models/media.py`. -/
structure MediaContainerStatus where
  id : String
  status : ContainerStatus
  error_message : Option String := none
deriving DecidableEq, Repr

/-- Property `is_ready` of `MediaContainerStatus`. -/
def MediaContainerStatus.is_ready (s : MediaContainerStatus) : Bool :=
  s.status == .finished

/-- Property `has_error` of `MediaContainerStatus`. -/
def MediaContainerStatus.has_error (s : MediaContainerStatus) : Bool :=
  s.status == .error

/-- The raw JSON payload of a status fetch (`fields=id,status,error_message`),
before pydantic validation. -/
structure RawStatusPayload where
  id : String
  status : String
  error_message : Option String := none
deriving DecidableEq, Repr

/-- Pydantic validation `MediaContainerStatus.model_validate(data)` as
performed by `get_container_status`: the string `status` field must be a
member of the `ContainerStatus` enumeration, otherwise a validation error
is raised (modelled as `Except.error` carrying the error text). -/
def MediaContainerStatus.model_validate (r : RawStatusPayload) :
    Except String MediaContainerStatus :=
  match ContainerStatus.ofString r.status with
  | some s => .ok { id := r.id, status := s, error_message := r.error_message }
  | none => .error ("validation error for MediaContainerStatus: status " ++ r.status)

/-- Python truthiness of a `str | None` value: `None` and `""` are falsy. -/
def pyTruthy : Option String → Bool
  | none => false
  | some s => s != ""

/-- Python string interpolation of a `str | None` value: `None` renders
as the text "None". -/
def pyFormatOptStr : Option String → String
  | none => "None"
  | some s => s

/-- Errors an orchestration run can surface, one constructor per raise
site reached by the verified operations.  The three container failures all
raise the single Python `ContainerError` class and are distinguished here
by their raise site in `_wait_for_container`; the timeout message
interpolates a float and a status and is kept structured.  `apiError` is
the classified exception of `raise_for_error` on a non-200 response
(carrying the HTTP status), `keyError` is the `data["id"]` lookup failing
on a 200 publish response, and `oracleExhausted` marks a run that needed
more status fetches than the finite oracle supplies (an artifact of the
embedding, not of the code). -/
inductive SdkError where
  | validation (message : String)
  | containerProcessing (message : String)
  | containerExpired (message : String)
  | containerTimeout (max_wait_time : ℚ) (lastStatus : ContainerStatus)
  | apiError (status_code : ℕ)
  | keyError
  | oracleExhausted
deriving DecidableEq, Repr

/-- Loop body of `PostsClient._wait_for_container`: the successive results
of `get_container_status` are the list elements; `elapsed` is the
wall-clock time since `start_time` under the model that fetches are
instantaneous and each `time.sleep(poll_interval)` advances the clock by
exactly `poll_interval`.  Returns the outcome together with the number of
status fetches performed. -/
def waitLoop (poll_interval max_wait_time : ℚ) :
    List MediaContainerStatus → ℚ → Except SdkError MediaContainerStatus × ℕ
  | [], _ => (.error .oracleExhausted, 0)
  | s :: rest, elapsed =>
    if s.is_ready then
      (.ok s, 1)
    else if s.has_error then
      (.error (.containerProcessing
        ("Container processing failed: " ++ pyFormatOptStr s.error_message)), 1)
    else if s.status == .expired then
      (.error (.containerExpired "Container expired before publishing"), 1)
    else if max_wait_time ≤ elapsed then
      (.error (.containerTimeout max_wait_time s.status), 1)
    else
      let r := waitLoop poll_interval max_wait_time rest (elapsed + poll_interval)
      (r.1, r.2 + 1)

/-- Embedding of `PostsClient._wait_for_container(container_id, poll_interval,
max_wait_time)` run against the status-fetch oracle `statuses`: the loop
starts with `elapsed = 0` at `start_time`. -/
def wait_for_container (poll_interval max_wait_time : ℚ)
    (statuses : List MediaContainerStatus) :
    Except SdkError MediaContainerStatus × ℕ :=
  waitLoop poll_interval max_wait_time statuses 0

/-- A snapshot is non-terminal for the poller when none of the three
terminal branches of the loop fires: not ready, no error, not expired. -/
def isNonTerminal (s : MediaContainerStatus) : Bool :=
  !s.is_ready && !s.has_error && !(s.status == .expired)

/-- The hard-coded Threads text limit `MAX_TEXT_LENGTH` of
`_utils/validators.py`. -/
def MAX_TEXT_LENGTH : ℕ := 500

/-- Embedding of `validate_text_length` of `_utils/validators.py`: `None` passes, text
longer than `max_length` raises `ValidationError` with the interpolated
message. -/
def validate_text_length (text : Option String)
    (max_length : ℕ := MAX_TEXT_LENGTH) : Except String Unit :=
  match text with
  | none => .ok ()
  | some s =>
    if s.length > max_length then
      .error ("Text exceeds maximum length of " ++ toString max_length ++
        " characters (got " ++ toString s.length ++ " characters)")
    else
      .ok ()

/-- Embedding of `BasePostsClient._validate_publish_params`: text length first, then
the Python `any([text, image_url, video_url])` truthiness check. -/
def validate_publish_params (text image_url video_url : Option String) :
    Except String Unit :=
  match validate_text_length text with
  | .error m => .error m
  | .ok _ =>
    if !(pyTruthy text || pyTruthy image_url || pyTruthy video_url) then
      .error "At least one of text, image_url, or video_url is required"
    else
      .ok ()

/-- The `MediaType` string enumeration of `constants.py`. -/
inductive MediaType where
  | text
  | text_post
  | image
  | video
  | carousel
  | carousel_album
deriving DecidableEq, Repr

/-- Embedding of `BasePostsClient._determine_media_type`: Python truthiness of the two
url arguments, video checked first; text is not consulted. -/
def determine_media_type (_text image_url video_url : Option String) :
    MediaType :=
  if pyTruthy video_url then .video
  else if pyTruthy image_url then .image
  else .text

/-- The `Post` pydantic model of `models/post.py`, restricted to its
scalar fields; the datetime/dict/list-valued metadata fields
(`timestamp`, `owner`, `children`, ...) are never consulted by the
verified operations and are omitted.  Defaults match the pydantic
declarations. -/
structure Post where
  id : String
  media_product_type : String := "THREADS"
  media_type : MediaType
  media_url : Option String := none
  permalink : Option String := none
  username : Option String := none
  text : Option String := none
  shortcode : Option String := none
  thumbnail_url : Option String := none
  is_quote_post : Bool := false
deriving DecidableEq, Repr

/-- The minimal `Post(id=post_id, media_type="TEXT_POST")` object built at
the two fallback sites of `PostsClient.publish`. -/
def Post.minimal (post_id : String) : Post :=
  { id := post_id, media_type := .text_post }

/-- An HTTP response of the publish call, reduced to the two pieces the
code consults: the status code and the `"id"` field of the JSON body
(`none` when the body has no such key). -/
structure HttpResponse where
  status_code : ℕ
  body_id : Option String
deriving DecidableEq, Repr

/-- Outcomes of the remote calls one orchestration run may make, fixed up
front (the transport oracle).  `create_container` and `get_post` carry
either the decoded success value or the HTTP status of a failed call;
`statuses` is the stream of successive `get_container_status` results. -/
structure Transport where
  create_container : Except ℕ String
  statuses : List MediaContainerStatus
  publish_response : HttpResponse
  get_post : Except ℕ Post
deriving Repr

/-- One remote call issued during a run, for the call log.  The
container-creation entry records the `media_type` passed to
`media.create_container`. -/
inductive CallKind where
  | createContainer (media_type : MediaType)
  | statusFetch
  | publishPost
  | getPost
deriving DecidableEq, Repr

/-- Embedding of `PostsClient.publish(user_id, container_id, fetch_post=...)`: issue
the publish call; on a non-200 status raise the classified error; read
`data["id"]`; without `fetch_post` return the minimal post; otherwise try
the post-detail fetch and fall back to the minimal post if it fails for
any reason.  The two id arguments only shape the request URL. -/
def publish (t : Transport) (_user_id _container_id : String)
    (fetch_post : Bool := true) : Except SdkError Post × List CallKind :=
  if t.publish_response.status_code ≠ 200 then
    (.error (.apiError t.publish_response.status_code), [.publishPost])
  else
    match t.publish_response.body_id with
    | none => (.error .keyError, [.publishPost])
    | some post_id =>
      if !fetch_post then
        (.ok (Post.minimal post_id), [.publishPost])
      else
        match t.get_post with
        | .ok p => (.ok p, [.publishPost, .getPost])
        | .error _ => (.ok (Post.minimal post_id), [.publishPost, .getPost])

/-- Embedding of `PostsClient.create_and_publish`: validate, resolve the media type,
create the container, wait for readiness when `wait_for_ready` is set and
a (truthy) video url was supplied, then publish (which always fetches the
post details). -/
def create_and_publish (t : Transport) (user_id : String)
    (text image_url video_url : Option String)
    (wait_for_ready : Bool := true) (poll_interval : ℚ := 1)
    (max_wait_time : ℚ := 60) : Except SdkError Post × List CallKind :=
  match validate_publish_params text image_url video_url with
  | .error m => (.error (.validation m), [])
  | .ok _ =>
    let media_type := determine_media_type text image_url video_url
    match t.create_container with
    | .error code => (.error (.apiError code), [.createContainer media_type])
    | .ok container_id =>
      if wait_for_ready && pyTruthy video_url then
        match wait_for_container poll_interval max_wait_time t.statuses with
        | (.error e, n) =>
          (.error e, .createContainer media_type :: List.replicate n .statusFetch)
        | (.ok _, n) =>
          let r := publish t user_id container_id true
          (r.1, .createContainer media_type ::
            (List.replicate n .statusFetch ++ r.2))
      else
        let r := publish t user_id container_id true
        (r.1, .createContainer media_type :: r.2)

/-- The `RateLimiter` dataclass of `_utils/rate_limit.py`: capacity,
window length, and the deque of request timestamps (oldest first).  Every
operation of the Python class reads `time.time()` under its lock; the
embedding passes that reading in as `now`.  The per-instance lock
serializes operations, so each operation is modelled as one atomic state
transformation. -/
structure RateLimiter where
  max_requests : ℕ
  window_seconds : ℚ := 86400
  timestamps : List ℚ := []
deriving DecidableEq, Repr

/-- Embedding of `RateLimiter._cleanup_old_timestamps(now)`: pop from the front while
the oldest timestamp is strictly below `now - window_seconds`. -/
def RateLimiter.cleanup_old_timestamps (l : RateLimiter) (now : ℚ) :
    RateLimiter :=
  { l with timestamps := l.timestamps.dropWhile (fun t => t < now - l.window_seconds) }

/-- Embedding of `RateLimiter.can_proceed()`: prune, then compare the retained count
with the capacity.  Returns the answer and the post-call state. -/
def RateLimiter.can_proceed (l : RateLimiter) (now : ℚ) :
    Bool × RateLimiter :=
  let l' := l.cleanup_old_timestamps now
  (l'.timestamps.length < l.max_requests, l')

/-- Embedding of `RateLimiter.record_request()`: append `time.time()` to the deque.
No pruning happens on this entry point. -/
def RateLimiter.record_request (l : RateLimiter) (now : ℚ) : RateLimiter :=
  { l with timestamps := l.timestamps ++ [now] }

/-- Embedding of `RateLimiter.wait_if_needed()`: prune; under capacity return 0
immediately; otherwise read the oldest timestamp (`none` models the
`IndexError` of `timestamps[0]` on an empty deque, reachable only with
`max_requests = 0`) and sleep until it leaves the window.  Returns the
time waited, the post-call state, and the wall-clock instant at which the
call returns (`now` plus the sleep). -/
def RateLimiter.wait_if_needed (l : RateLimiter) (now : ℚ) :
    Option (ℚ × RateLimiter × ℚ) :=
  let l' := l.cleanup_old_timestamps now
  if l'.timestamps.length < l.max_requests then
    some (0, l', now)
  else
    match l'.timestamps with
    | [] => none
    | oldest :: _ =>
      let wait_time := (oldest + l.window_seconds) - now
      if wait_time > 0 then
        some (wait_time, l', now + wait_time)
      else
        some (0, l', now)

/-- Property `RateLimiter.remaining`: prune, then
`max(0, max_requests - len(timestamps))` (truncated subtraction). -/
def RateLimiter.remaining (l : RateLimiter) (now : ℚ) : ℕ × RateLimiter :=
  let l' := l.cleanup_old_timestamps now
  (l.max_requests - l'.timestamps.length, l')

/-- Property `RateLimiter.usage`: prune, then the retained count. -/
def RateLimiter.usage (l : RateLimiter) (now : ℚ) : ℕ × RateLimiter :=
  let l' := l.cleanup_old_timestamps now
  (l'.timestamps.length, l')

/-- Embedding of `RateLimiter.reset()`: clear the deque. -/
def RateLimiter.reset (l : RateLimiter) : RateLimiter :=
  { l with timestamps := [] }

/-- All retained timestamps of `l` lie in the trailing window
`[now - window_seconds, now]` at observation instant `now`. -/
def withinWindow (l : RateLimiter) (now : ℚ) : Prop :=
  ∀ t ∈ l.timestamps, now - l.window_seconds ≤ t ∧ t ≤ now

instance (l : RateLimiter) (now : ℚ) : Decidable (withinWindow l now) := by
  unfold withinWindow; infer_instance

/-! Helper lemmas about the poller loop. -/

lemma isNonTerminal_iff (s : MediaContainerStatus) :
    isNonTerminal s = true ↔
      s.status ≠ .finished ∧ s.status ≠ .error ∧ s.status ≠ .expired := by
  simp [isNonTerminal, MediaContainerStatus.is_ready, MediaContainerStatus.has_error,
    and_assoc]

lemma waitLoop_ready (pi mw : ℚ) (s : MediaContainerStatus)
    (rest : List MediaContainerStatus) (e : ℚ) (h : s.is_ready = true) :
    waitLoop pi mw (s :: rest) e = (.ok s, 1) := by
  simp [waitLoop, h]

lemma waitLoop_error (pi mw : ℚ) (s : MediaContainerStatus)
    (rest : List MediaContainerStatus) (e : ℚ) (h : s.has_error = true) :
    waitLoop pi mw (s :: rest) e =
      (.error (.containerProcessing
        ("Container processing failed: " ++ pyFormatOptStr s.error_message)), 1) := by
  have hs : s.status = .error := by
    simpa [MediaContainerStatus.has_error] using h
  simp [waitLoop, MediaContainerStatus.is_ready, MediaContainerStatus.has_error, hs]

lemma waitLoop_expired (pi mw : ℚ) (s : MediaContainerStatus)
    (rest : List MediaContainerStatus) (e : ℚ) (h : s.status = .expired) :
    waitLoop pi mw (s :: rest) e =
      (.error (.containerExpired "Container expired before publishing"), 1) := by
  simp [waitLoop, MediaContainerStatus.is_ready, MediaContainerStatus.has_error, h]

lemma waitLoop_timeout_step (pi mw : ℚ) (s : MediaContainerStatus)
    (rest : List MediaContainerStatus) (e : ℚ)
    (hnt : isNonTerminal s = true) (ht : mw ≤ e) :
    waitLoop pi mw (s :: rest) e =
      (.error (.containerTimeout mw s.status), 1) := by
  obtain ⟨h1, h2, h3⟩ := (isNonTerminal_iff s).1 hnt
  simp [waitLoop, MediaContainerStatus.is_ready, MediaContainerStatus.has_error,
    h1, h2, h3, ht]

lemma waitLoop_continue (pi mw : ℚ) (s : MediaContainerStatus)
    (rest : List MediaContainerStatus) (e : ℚ)
    (hnt : isNonTerminal s = true) (ht : e < mw) :
    waitLoop pi mw (s :: rest) e =
      ((waitLoop pi mw rest (e + pi)).1, (waitLoop pi mw rest (e + pi)).2 + 1) := by
  obtain ⟨h1, h2, h3⟩ := (isNonTerminal_iff s).1 hnt
  simp [waitLoop, MediaContainerStatus.is_ready, MediaContainerStatus.has_error,
    h1, h2, h3, not_le.2 ht]

/-- Skipping a block of non-terminal snapshots: as long as every elapsed
check passes, the loop consumes the block, advancing the clock by one
`poll_interval` per element and counting one fetch per element. -/
lemma waitLoop_skip (pi mw : ℚ) (front rest : List MediaContainerStatus)
    (e : ℚ) (hnt : ∀ s ∈ front, isNonTerminal s = true)
    (htime : ∀ i < front.length, e + i * pi < mw) :
    waitLoop pi mw (front ++ rest) e =
      ((waitLoop pi mw rest (e + front.length * pi)).1,
       (waitLoop pi mw rest (e + front.length * pi)).2 + front.length) := by
  induction front generalizing e with
  | nil => simp
  | cons s front ih =>
    have h0 : e < mw := by
      have := htime 0 (by simp)
      simpa using this
    rw [List.cons_append, waitLoop_continue pi mw s (front ++ rest) e
      (hnt s (by simp)) h0]
    rw [ih (e + pi) (fun x hx => hnt x (by simp [hx]))
      (fun i hi => by
        have := htime (i + 1) (by simpa using Nat.succ_lt_succ hi)
        push_cast at this ⊢
        linarith)]
    have harg : e + pi + (front.length : ℚ) * pi =
        e + ((s :: front).length : ℚ) * pi := by
      rw [List.length_cons]
      push_cast
      ring
    rw [harg, List.length_cons]
    simp [add_assoc]

/-- Complete run of the poller: a block of non-terminal snapshots whose
elapsed checks all pass, then a `FINISHED` snapshot. -/
lemma wait_run_ready (pi mw : ℚ) (front rest : List MediaContainerStatus)
    (last : MediaContainerStatus)
    (hnt : ∀ s ∈ front, isNonTerminal s = true)
    (hready : last.is_ready = true)
    (htime : ∀ i < front.length, (i : ℚ) * pi < mw) :
    wait_for_container pi mw (front ++ last :: rest) =
      (.ok last, front.length + 1) := by
  unfold wait_for_container
  rw [waitLoop_skip pi mw front (last :: rest) 0 hnt
    (fun i hi => by simpa using htime i hi)]
  rw [waitLoop_ready pi mw last rest _ hready]
  simp [Nat.add_comm]

/-- Complete run of the poller ending at an `ERROR` snapshot. -/
lemma wait_run_error (pi mw : ℚ) (front rest : List MediaContainerStatus)
    (err : MediaContainerStatus)
    (hnt : ∀ s ∈ front, isNonTerminal s = true)
    (herr : err.has_error = true)
    (htime : ∀ i < front.length, (i : ℚ) * pi < mw) :
    wait_for_container pi mw (front ++ err :: rest) =
      (.error (.containerProcessing
        ("Container processing failed: " ++ pyFormatOptStr err.error_message)),
       front.length + 1) := by
  unfold wait_for_container
  rw [waitLoop_skip pi mw front (err :: rest) 0 hnt
    (fun i hi => by simpa using htime i hi)]
  rw [waitLoop_error pi mw err rest _ herr]
  simp [Nat.add_comm]

/-- Complete run of the poller ending at an `EXPIRED` snapshot. -/
lemma wait_run_expired (pi mw : ℚ) (front rest : List MediaContainerStatus)
    (ex : MediaContainerStatus)
    (hnt : ∀ s ∈ front, isNonTerminal s = true)
    (hex : ex.status = .expired)
    (htime : ∀ i < front.length, (i : ℚ) * pi < mw) :
    wait_for_container pi mw (front ++ ex :: rest) =
      (.error (.containerExpired "Container expired before publishing"),
       front.length + 1) := by
  unfold wait_for_container
  rw [waitLoop_skip pi mw front (ex :: rest) 0 hnt
    (fun i hi => by simpa using htime i hi)]
  rw [waitLoop_expired pi mw ex rest _ hex]
  simp [Nat.add_comm]

/-- Complete run of the poller ending in a timeout: the elapsed check
passes for every element of the block but trips at the snapshot after
it. -/
lemma wait_run_timeout (pi mw : ℚ) (front rest : List MediaContainerStatus)
    (s : MediaContainerStatus)
    (hnt : ∀ x ∈ front, isNonTerminal x = true)
    (hs : isNonTerminal s = true)
    (htime : ∀ i < front.length, (i : ℚ) * pi < mw)
    (hT : mw ≤ (front.length : ℚ) * pi) :
    wait_for_container pi mw (front ++ s :: rest) =
      (.error (.containerTimeout mw s.status), front.length + 1) := by
  unfold wait_for_container
  rw [waitLoop_skip pi mw front (s :: rest) 0 hnt
    (fun i hi => by simpa using htime i hi)]
  rw [waitLoop_timeout_step pi mw s rest _ hs (by simpa using hT)]
  simp [Nat.add_comm]

/-! Concrete snapshots used by witnesses and counterexamples. -/

/-- An `IN_PROGRESS` status snapshot. -/
def inProgressSnap : MediaContainerStatus :=
  { id := "container_123", status := .in_progress }

/-- A `FINISHED` status snapshot. -/
def finishedSnap : MediaContainerStatus :=
  { id := "container_123", status := .finished }

/-- An `ERROR` status snapshot with the error message of the repository's
own test fixture. -/
def errorSnap : MediaContainerStatus :=
  { id := "container_123", status := .error,
    error_message := some "Invalid video format" }

/-- An `EXPIRED` status snapshot. -/
def expiredSnap : MediaContainerStatus :=
  { id := "container_123", status := .expired }

/-- C1 counterexample: at the default parameters (`poll_interval = 1.0`,
`max_wait_time = 60.0`) a sequence of 61 `IN_PROGRESS` snapshots followed
by `FINISHED` satisfies the claim's premises (all earlier elements
non-terminal, final element `FINISHED`), yet the poller does not return
the `FINISHED` snapshot after 62 fetches: the elapsed check trips at the
61st fetch and it raises the timeout error instead. -/
theorem C1_counterexample :
    (∀ s ∈ List.replicate 61 inProgressSnap, isNonTerminal s = true) ∧
    finishedSnap.is_ready = true ∧
    wait_for_container 1 60
        (List.replicate 61 inProgressSnap ++ [finishedSnap]) ≠
      (.ok finishedSnap, 62) := by
  refine ⟨by decide, by decide, ?_⟩
  have hsplit : List.replicate 61 inProgressSnap ++ [finishedSnap] =
      List.replicate 60 inProgressSnap ++ inProgressSnap :: [finishedSnap] := by
    rw [List.replicate_succ' 60 inProgressSnap]
    simp
  rw [hsplit, wait_run_timeout 1 60 (List.replicate 60 inProgressSnap)
    [finishedSnap] inProgressSnap
    (by intro x hx; simp at hx; rw [hx]; decide)
    (by decide)
    (by intro i hi; simp at hi ⊢; exact_mod_cast hi)
    (by simp)]
  simp

/-- C1 (amended): for every poll interval and wait bound, and every
status-fetch sequence whose final element is `FINISHED` and whose earlier
elements are all non-terminal, the poller returns that `FINISHED`
snapshot after exactly one fetch per element — provided the elapsed check
before each sleep stays below `max_wait_time` (the elapsed time at the
i-th non-terminal fetch being `i * poll_interval`). -/
theorem poller_terminal_convergence (pi mw : ℚ)
    (front : List MediaContainerStatus) (last : MediaContainerStatus)
    (hnt : ∀ s ∈ front, isNonTerminal s = true)
    (hready : last.is_ready = true)
    (htime : ∀ i < front.length, (i : ℚ) * pi < mw) :
    wait_for_container pi mw (front ++ [last]) =
      (.ok last, front.length + 1) :=
  wait_run_ready pi mw front [] last hnt hready htime

/-- Witness for C1: the two-element sequence `[IN_PROGRESS, FINISHED]` at
the default parameters yields the `FINISHED` snapshot after 2 fetches. -/
theorem poller_terminal_convergence_witness :
    wait_for_container 1 60 ([inProgressSnap] ++ [finishedSnap]) =
      (.ok finishedSnap, [inProgressSnap].length + 1) :=
  poller_terminal_convergence 1 60 [inProgressSnap] finishedSnap
    (by decide) (by decide)
    (by simp +decide [Nat.lt_one_iff])

/-- C2 counterexample: with `poll_interval = 2` and `max_wait_time = 1`
(so `0 < max_wait_time < poll_interval`) and every fetch returning
`IN_PROGRESS`, the poller performs exactly TWO status fetches before the
timeout error — not one as claimed: the first elapsed check sees 0 <
max_wait_time, sleeps once, and only the second check trips. -/
theorem C2_counterexample :
    (0 : ℚ) < 1 ∧ (1 : ℚ) < 2 ∧
    (∀ s ∈ [inProgressSnap, inProgressSnap], isNonTerminal s = true) ∧
    wait_for_container 2 1 [inProgressSnap, inProgressSnap] =
      (.error (.containerTimeout 1 .in_progress), 2) ∧
    (wait_for_container 2 1 [inProgressSnap, inProgressSnap]).2 ≠ 1 := by
  have hrun : wait_for_container 2 1 [inProgressSnap, inProgressSnap] =
      (.error (.containerTimeout 1 .in_progress), 2) := by
    unfold wait_for_container
    rw [waitLoop_continue 2 1 inProgressSnap [inProgressSnap] 0
      (by decide) (by norm_num)]
    rw [waitLoop_timeout_step 2 1 inProgressSnap [] (0 + 2)
      (by decide) (by norm_num)]
    rfl
  exact ⟨by norm_num, by norm_num, by decide, hrun, by rw [hrun]; decide⟩

/-- C2 (amended): for every `poll_interval > 0` and `max_wait_time` with
`0 < max_wait_time < poll_interval`, if every status fetch returns a
non-terminal status the poller performs exactly TWO status fetches and
then fails with the container-timeout error (never zero fetches: the
first check passes at elapsed 0, and the timeout trips right after the
single sleep). -/
theorem poller_timeout_floor (pi mw : ℚ) (h0 : 0 < mw) (hlt : mw < pi)
    (s1 s2 : MediaContainerStatus) (rest : List MediaContainerStatus)
    (h1 : isNonTerminal s1 = true) (h2 : isNonTerminal s2 = true) :
    wait_for_container pi mw (s1 :: s2 :: rest) =
      (.error (.containerTimeout mw s2.status), 2) := by
  unfold wait_for_container
  rw [waitLoop_continue pi mw s1 (s2 :: rest) 0 h1 (by linarith)]
  rw [waitLoop_timeout_step pi mw s2 rest (0 + pi) h2 (by linarith)]

/-- Witness for C2: `poll_interval = 2`, `max_wait_time = 1`, all fetches
`IN_PROGRESS`: two fetches, then timeout. -/
theorem poller_timeout_floor_witness :
    wait_for_container 2 1 [inProgressSnap, inProgressSnap] =
      (.error (.containerTimeout 1 inProgressSnap.status), 2) :=
  poller_timeout_floor 2 1 (by decide) (by decide)
    inProgressSnap inProgressSnap [] (by decide) (by decide)

/-- C3: if the poller actually fetches an `ERROR` snapshot (all earlier
fetches non-terminal and no earlier elapsed check tripped), it fails with
the container-processing-failed error, whose message contains the
snapshot's `error_message`, and performs no further fetches: the fetch
count is exactly the index of the `ERROR` fetch plus one, whatever
statuses follow. -/
theorem poller_error_terminality (pi mw : ℚ)
    (front rest : List MediaContainerStatus) (err : MediaContainerStatus)
    (hnt : ∀ s ∈ front, isNonTerminal s = true)
    (herr : err.status = .error)
    (htime : ∀ i < front.length, (i : ℚ) * pi < mw) :
    wait_for_container pi mw (front ++ err :: rest) =
      (.error (.containerProcessing
        ("Container processing failed: " ++ pyFormatOptStr err.error_message)),
       front.length + 1) ∧
    ∀ m, err.error_message = some m →
      ∃ p q, "Container processing failed: " ++ pyFormatOptStr err.error_message =
        p ++ (m ++ q) := by
  refine ⟨wait_run_error pi mw front rest err hnt
    (by simp [MediaContainerStatus.has_error, herr]) htime, ?_⟩
  intro m hm
  exact ⟨"Container processing failed: ", "", by simp [pyFormatOptStr, hm]⟩

/-- Witness for C3: the spec's P3 sequence `[IN_PROGRESS, ERROR]` at the
default parameters: the processing-failed error after exactly 2 fetches,
message carrying the fixture's `error_message`. -/
theorem poller_error_terminality_witness :
    wait_for_container 1 60 ([inProgressSnap] ++ errorSnap :: []) =
      (.error (.containerProcessing
        ("Container processing failed: " ++ pyFormatOptStr errorSnap.error_message)),
       [inProgressSnap].length + 1) ∧
    ∀ m, errorSnap.error_message = some m →
      ∃ p q, "Container processing failed: " ++ pyFormatOptStr errorSnap.error_message =
        p ++ (m ++ q) :=
  poller_error_terminality 1 60 [inProgressSnap] [] errorSnap
    (by decide) (by decide)
    (by simp +decide [Nat.lt_one_iff])

/-! Orchestrator claims. -/

/-- A transport oracle matching the repository's own test fixtures:
container creation succeeds with `container_123`, publish succeeds with
`post_456`, and the post-detail fetch fails with a 500. -/
def failingFetchTransport : Transport :=
  { create_container := .ok "container_123"
    statuses := []
    publish_response := { status_code := 200, body_id := some "post_456" }
    get_post := .error 500 }

/-- A transport oracle whose container expires: creation succeeds, the
first status fetch returns `EXPIRED`. -/
def expiringTransport : Transport :=
  { create_container := .ok "container_123"
    statuses := [expiredSnap]
    publish_response := { status_code := 200, body_id := some "post_456" }
    get_post := .error 500 }

/-- C4: in a `create_and_publish` call that supplies a (truthy) video url
with `wait_for_ready` set, if the poller actually fetches an `EXPIRED`
snapshot (all earlier fetches non-terminal, no earlier elapsed check
tripped), the operation fails with the container-expired error and the
publish call is never issued. -/
theorem create_and_publish_expired_aborts (t : Transport) (u : String)
    (text image_url video_url : Option String) (pi mw : ℚ)
    (front rest : List MediaContainerStatus) (ex : MediaContainerStatus)
    (c : String)
    (hv : pyTruthy video_url = true)
    (hval : validate_publish_params text image_url video_url = .ok ())
    (hc : t.create_container = .ok c)
    (hst : t.statuses = front ++ ex :: rest)
    (hnt : ∀ s ∈ front, isNonTerminal s = true)
    (hex : ex.status = .expired)
    (htime : ∀ i < front.length, (i : ℚ) * pi < mw) :
    (create_and_publish t u text image_url video_url true pi mw).1 =
      .error (.containerExpired "Container expired before publishing") ∧
    CallKind.publishPost ∉
      (create_and_publish t u text image_url video_url true pi mw).2 := by
  have hwait := wait_run_expired pi mw front rest ex hnt hex htime
  simp only [create_and_publish, hval, hc, hv, hst, Bool.true_and, if_true,
    hwait]
  simp [List.mem_replicate]

/-- Witness for C4: the spec's Scenario C (`[EXPIRED]`) run through
`create_and_publish` with a video url. -/
theorem create_and_publish_expired_aborts_witness :
    (create_and_publish expiringTransport "user_123" (some "Video post") none
      (some "https://example.com/video.mp4") true 1 60).1 =
      .error (.containerExpired "Container expired before publishing") ∧
    CallKind.publishPost ∉
      (create_and_publish expiringTransport "user_123" (some "Video post") none
        (some "https://example.com/video.mp4") true 1 60).2 :=
  create_and_publish_expired_aborts expiringTransport "user_123"
    (some "Video post") none (some "https://example.com/video.mp4") 1 60
    [] [] expiredSnap "container_123"
    (by decide) rfl rfl rfl (by decide) (by decide) (by simp)

/-- C5: a `create_and_publish` input whose text exceeds 500 characters,
or which supplies none of text, image url and video url, fails with the
validation error and the call log is empty: no HTTP request of any kind
is made. -/
theorem create_and_publish_validation_short_circuit (t : Transport)
    (u : String) (text image_url video_url : Option String)
    (wait_for_ready : Bool) (pi mw : ℚ)
    (h : (∃ s, text = some s ∧ 500 < s.length) ∨
         (text = none ∧ image_url = none ∧ video_url = none)) :
    ∃ m, create_and_publish t u text image_url video_url wait_for_ready pi mw =
      (.error (.validation m), []) := by
  obtain ⟨s, hs, hlen⟩ | ⟨h1, h2, h3⟩ := h
  · refine ⟨"Text exceeds maximum length of " ++ toString MAX_TEXT_LENGTH ++
      " characters (got " ++ toString s.length ++ " characters)", ?_⟩
    have hval : validate_publish_params text image_url video_url =
        .error ("Text exceeds maximum length of " ++ toString MAX_TEXT_LENGTH ++
          " characters (got " ++ toString s.length ++ " characters)") := by
      simp [validate_publish_params, validate_text_length, hs, MAX_TEXT_LENGTH, hlen]
    simp [create_and_publish, hval]
  · refine ⟨"At least one of text, image_url, or video_url is required", ?_⟩
    have hval : validate_publish_params text image_url video_url =
        .error "At least one of text, image_url, or video_url is required" := by
      simp [validate_publish_params, validate_text_length, h1, h2, h3, pyTruthy]
    simp [create_and_publish, hval]

set_option maxRecDepth 4000 in
/-- Witness for C5: a 501-character text fails validation with an empty
call log (the spec's P4 input). -/
theorem create_and_publish_validation_short_circuit_witness :
    ∃ m, create_and_publish failingFetchTransport "user_123"
        (some (String.mk (List.replicate 501 'a'))) none none true 1 60 =
      (.error (.validation m), []) :=
  create_and_publish_validation_short_circuit failingFetchTransport "user_123"
    (some (String.mk (List.replicate 501 'a'))) none none true 1 60
    (Or.inl ⟨String.mk (List.replicate 501 'a'), rfl, by decide⟩)

/-- C6: whenever the publish HTTP call succeeds (status 200 with a
returned post id) and the subsequent post-detail fetch fails for any
reason, `publish` still returns a `Post` whose id equals the id returned
by the publish call, without raising — and `create_and_publish`, which
ends in `publish`, does the same on its non-waiting path. -/
theorem publish_fallback (t : Transport) (u cid pid : String) (e : ℕ)
    (hpub : t.publish_response = { status_code := 200, body_id := some pid })
    (hget : t.get_post = .error e) :
    (publish t u cid true).1 = .ok (Post.minimal pid) ∧
    (Post.minimal pid).id = pid ∧
    ∀ (text img vid : Option String) (c : String) (wfr : Bool) (pi mw : ℚ),
      validate_publish_params text img vid = .ok () →
      pyTruthy vid = false →
      t.create_container = .ok c →
      (create_and_publish t u text img vid wfr pi mw).1 =
        .ok (Post.minimal pid) := by
  have hp : (publish t u cid true).1 = .ok (Post.minimal pid) := by
    simp [publish, hpub, hget]
  refine ⟨hp, rfl, ?_⟩
  intro text img vid c wfr pi mw hval hvid hc
  simp [create_and_publish, hval, hc, hvid, publish, hpub, hget]

/-- Witness for C6: the spec's P6 simulation (publish returns 200 with
`post_456`, the detail fetch returns 500): publish yields the minimal
post with the correct id. -/
theorem publish_fallback_witness :
    (publish failingFetchTransport "user_123" "container_123" true).1 =
      .ok (Post.minimal "post_456") :=
  (publish_fallback failingFetchTransport "user_123" "container_123"
    "post_456" 500 rfl rfl).1

/-- C7: media-type resolution precedence: a (truthy) video url yields
VIDEO regardless of the other inputs — in particular when an image url is
supplied as well; otherwise a (truthy) image url yields IMAGE; otherwise
TEXT.  On the `create_and_publish` path the container-creation call is
issued with exactly that media type (first entry of the call log). -/
theorem media_type_precedence (text image_url video_url : Option String) :
    (pyTruthy video_url = true →
      determine_media_type text image_url video_url = .video) ∧
    (pyTruthy video_url = false → pyTruthy image_url = true →
      determine_media_type text image_url video_url = .image) ∧
    (pyTruthy video_url = false → pyTruthy image_url = false →
      determine_media_type text image_url video_url = .text) ∧
    ∀ (t : Transport) (u : String) (wfr : Bool) (pi mw : ℚ),
      validate_publish_params text image_url video_url = .ok () →
      (create_and_publish t u text image_url video_url wfr pi mw).2.head? =
        some (.createContainer (determine_media_type text image_url video_url)) := by
  refine ⟨fun hv => by simp [determine_media_type, hv],
    fun hv hi => by simp [determine_media_type, hv, hi],
    fun hv hi => by simp [determine_media_type, hv, hi], ?_⟩
  intro t u wfr pi mw hval
  cases hc : t.create_container with
  | error code => simp [create_and_publish, hval, hc]
  | ok c =>
    by_cases hw : (wfr && pyTruthy video_url) = true
    · cases hrun : wait_for_container pi mw t.statuses with
      | mk r n =>
        cases r with
        | error e => simp [create_and_publish, hval, hc, hw, hrun]
        | ok s => simp [create_and_publish, hval, hc, hw, hrun]
    · simp [create_and_publish, hval, hc,
        Bool.not_eq_true _ ▸ hw, hw]

/-- Witness for C7: both an image url and a video url supplied resolve to
VIDEO. -/
theorem media_type_precedence_witness :
    determine_media_type (some "hello")
      (some "https://example.com/image.jpg")
      (some "https://example.com/video.mp4") = .video :=
  (media_type_precedence (some "hello")
    (some "https://example.com/image.jpg")
    (some "https://example.com/video.mp4")).1 (by decide)

/-- C10: whenever `publish` returns a minimal `Post` — the caller passed
`fetch_post=False`, or the post-detail fetch after a successful publish
failed — that post's `media_type` is the constant `TEXT_POST`, regardless
of the published container's actual media type. -/
theorem minimal_post_media_type (t : Transport) (u cid pid : String)
    (hpub : t.publish_response = { status_code := 200, body_id := some pid }) :
    (publish t u cid false).1 = .ok (Post.minimal pid) ∧
    (∀ e, t.get_post = .error e →
      (publish t u cid true).1 = .ok (Post.minimal pid)) ∧
    (Post.minimal pid).media_type = .text_post := by
  refine ⟨by simp [publish, hpub], ?_, rfl⟩
  intro e hget
  simp [publish, hpub, hget]

/-- Witness for C10: with `fetch_post=False` against a transport whose
publish succeeds, the returned minimal post carries media type
`TEXT_POST`. -/
theorem minimal_post_media_type_witness :
    (publish failingFetchTransport "user_123" "container_123" false).1 =
      .ok (Post.minimal "post_456") ∧
    (Post.minimal "post_456").media_type = .text_post :=
  ⟨(minimal_post_media_type failingFetchTransport "user_123" "container_123"
      "post_456" rfl).1,
   (minimal_post_media_type failingFetchTransport "user_123" "container_123"
      "post_456" rfl).2.2⟩

/-! Status decoder claim. -/

lemma ofString_eq_finished (str : String) :
    ContainerStatus.ofString str = some .finished ↔ str = "FINISHED" := by
  constructor
  · intro h
    unfold ContainerStatus.ofString at h
    split at h <;> simp_all
  · intro h
    rw [h]
    rfl

/-- C8 counterexample: a status fetch whose status string is not a
recognized `ContainerStatus` value does not reach the poller's
non-terminal branch: pydantic validation of the snapshot raises, so the
decoder fails on the unrecognized string instead of treating it as
non-terminal and polling on. -/
theorem C8_counterexample :
    MediaContainerStatus.model_validate
      { id := "container_123", status := "UNRECOGNIZED_STATUS" } =
      .error "validation error for MediaContainerStatus: status UNRECOGNIZED_STATUS" ∧
    ∀ s, MediaContainerStatus.model_validate
      { id := "container_123", status := "UNRECOGNIZED_STATUS" } ≠ .ok s := by
  refine ⟨rfl, ?_⟩
  intro s h
  rw [show MediaContainerStatus.model_validate
      { id := "container_123", status := "UNRECOGNIZED_STATUS" } =
      .error "validation error for MediaContainerStatus: status UNRECOGNIZED_STATUS"
    from rfl] at h
  exact Except.noConfusion h

/-- C8 (amended): an unrecognized status string makes the status decoder
raise a pydantic validation error — the snapshot never reaches the poller
and is in particular never treated as success; a decoded snapshot reads
as ready only when the raw status string was exactly "FINISHED"; and the
recognized non-terminal statuses keep the poller polling (it consumes the
fetch and asks for another rather than returning). -/
theorem unrecognized_status_decode (r : RawStatusPayload) :
    (ContainerStatus.ofString r.status = none →
      ∃ m, MediaContainerStatus.model_validate r = .error m) ∧
    (∀ s, MediaContainerStatus.model_validate r = .ok s →
      (s.is_ready = true ↔ r.status = "FINISHED")) ∧
    (∀ pi mw : ℚ, ∀ snap : MediaContainerStatus, isNonTerminal snap = true →
      0 < mw → wait_for_container pi mw [snap] = (.error .oracleExhausted, 1)) := by
  refine ⟨?_, ?_, ?_⟩
  · intro h
    exact ⟨"validation error for MediaContainerStatus: status " ++ r.status,
      by simp [MediaContainerStatus.model_validate, h]⟩
  · intro s h
    unfold MediaContainerStatus.model_validate at h
    cases hof : ContainerStatus.ofString r.status with
    | none => rw [hof] at h; exact Except.noConfusion h
    | some c =>
      rw [hof] at h
      cases h
      rw [← ofString_eq_finished]
      simp [MediaContainerStatus.is_ready, hof]
  · intro pi mw snap hnt hmw
    unfold wait_for_container
    rw [waitLoop_continue pi mw snap [] 0 hnt hmw]
    rfl

/-- Witness for C8: the decoder fails on the raw payload with status
string "SOMETHING_NEW". -/
theorem unrecognized_status_decode_witness :
    ∃ m, MediaContainerStatus.model_validate
      { id := "container_123", status := "SOMETHING_NEW" } = .error m :=
  (unrecognized_status_decode
    { id := "container_123", status := "SOMETHING_NEW" }).1 rfl

/-! Rate limiter claim. -/

lemma mem_dropWhile_lt_ge (c : ℚ) (ts : List ℚ)
    (hs : List.Pairwise (· ≤ ·) ts) :
    ∀ t ∈ ts.dropWhile (fun x => decide (x < c)), c ≤ t := by
  induction ts with
  | nil => simp
  | cons x ts ih =>
    rw [List.pairwise_cons] at hs
    by_cases hx : x < c
    · simpa [List.dropWhile_cons, hx] using ih hs.2
    · intro t ht
      simp only [List.dropWhile_cons] at ht
      rw [if_neg (by simpa using hx)] at ht
      rcases (List.mem_cons).1 ht with h | h
      · exact h ▸ not_lt.1 hx
      · exact le_trans (not_lt.1 hx) (hs.1 t h)

lemma cleanup_within (l : RateLimiter) (now : ℚ)
    (hsorted : List.Pairwise (· ≤ ·) l.timestamps)
    (hpast : ∀ t ∈ l.timestamps, t ≤ now) :
    withinWindow (l.cleanup_old_timestamps now) now := by
  intro t ht
  simp only [RateLimiter.cleanup_old_timestamps] at ht
  refine ⟨mem_dropWhile_lt_ge _ _ hsorted t ht, ?_⟩
  exact hpast t ((List.dropWhile_sublist _).subset ht)

/-- C9 counterexample: `record_request` appends the current time without
pruning, so after it returns a stale timestamp (here one recorded at
time 0, with a 1-second window, observed at time 10) is still retained
outside the trailing window — the claim's invariant fails on the
`record_request` entry point. -/
theorem C9_counterexample :
    List.Pairwise (· ≤ ·) [(0 : ℚ)] ∧ (∀ t ∈ [(0 : ℚ)], t ≤ 10) ∧
    ¬ withinWindow
      (RateLimiter.record_request
        { max_requests := 5, window_seconds := 1, timestamps := [0] } 10) 10 := by
  refine ⟨by decide, by decide, ?_⟩
  intro h
  have h0 := (h 0 (by simp [RateLimiter.record_request])).1
  norm_num [RateLimiter.record_request] at h0

/-- C9 (amended): pruning happens lazily on `can_proceed`,
`wait_if_needed`, `remaining` and `usage` (and `reset` clears
everything), so after each of those entry points every retained timestamp
lies within the trailing window at the instant the call returns — given
that the deque was ordered and held only past timestamps on entry.
`record_request`, however, only appends the current time and prunes
nothing. -/
theorem rate_limiter_lazy_pruning (l : RateLimiter) (now : ℚ)
    (hsorted : List.Pairwise (· ≤ ·) l.timestamps)
    (hpast : ∀ t ∈ l.timestamps, t ≤ now) :
    withinWindow (l.can_proceed now).2 now ∧
    withinWindow (l.remaining now).2 now ∧
    withinWindow (l.usage now).2 now ∧
    withinWindow l.reset now ∧
    (∀ w l' now', l.wait_if_needed now = some (w, l', now') →
      withinWindow l' now') ∧
    (l.record_request now).timestamps = l.timestamps ++ [now] := by
  have hclean := cleanup_within l now hsorted hpast
  refine ⟨hclean, hclean, hclean, by simp [RateLimiter.reset, withinWindow],
    ?_, rfl⟩
  intro w l' now' h
  unfold RateLimiter.wait_if_needed at h
  by_cases hcap : (l.cleanup_old_timestamps now).timestamps.length < l.max_requests
  · rw [if_pos hcap] at h
    cases h
    exact hclean
  · rw [if_neg hcap] at h
    cases hts : (l.cleanup_old_timestamps now).timestamps with
    | nil => rw [hts] at h; exact Option.noConfusion h
    | cons oldest rest =>
      rw [hts] at h
      replace h :
          (if (oldest + l.window_seconds) - now > 0 then
            some ((oldest + l.window_seconds) - now, l.cleanup_old_timestamps now,
              now + ((oldest + l.window_seconds) - now))
          else some ((0 : ℚ), l.cleanup_old_timestamps now, now)) =
            some (w, l', now') := h
      by_cases hpos : (oldest + l.window_seconds) - now > 0
      · rw [if_pos hpos] at h
        cases h
        intro t ht
        have hsorted' : List.Pairwise (· ≤ ·) (oldest :: rest) := by
          rw [← hts]
          exact hsorted.sublist (List.dropWhile_sublist _)
        have hole : oldest ≤ t := by
          rcases (List.mem_cons).1 (hts ▸ ht) with hh | hh
          · exact hh ▸ le_refl _
          · exact (List.pairwise_cons.1 hsorted').1 t hh
        constructor
        · calc now + (oldest + l.window_seconds - now) - l.window_seconds
              = oldest := by ring
          _ ≤ t := hole
        · have htnow : t ≤ now := (hclean t ht).2
          linarith
      · rw [if_neg hpos] at h
        cases h
        exact hclean

/-- Witness for C9: a two-element deque recorded at times 0 and 1, with a
60-second window, observed at time 5. -/
theorem rate_limiter_lazy_pruning_witness :
    withinWindow
      (RateLimiter.can_proceed
        { max_requests := 2, window_seconds := 60, timestamps := [0, 1] } 5).2 5 ∧
    withinWindow
      (RateLimiter.remaining
        { max_requests := 2, window_seconds := 60, timestamps := [0, 1] } 5).2 5 ∧
    withinWindow
      (RateLimiter.usage
        { max_requests := 2, window_seconds := 60, timestamps := [0, 1] } 5).2 5 ∧
    withinWindow
      (RateLimiter.reset
        { max_requests := 2, window_seconds := 60, timestamps := [0, 1] }) 5 ∧
    (∀ w l' now',
      RateLimiter.wait_if_needed
        { max_requests := 2, window_seconds := 60, timestamps := [0, 1] } 5 =
        some (w, l', now') → withinWindow l' now') ∧
    (RateLimiter.record_request
      { max_requests := 2, window_seconds := 60, timestamps := [0, 1] } 5).timestamps =
      [0, 1] ++ [5] :=
  rate_limiter_lazy_pruning
    { max_requests := 2, window_seconds := 60, timestamps := [0, 1] } 5
    (by decide) (by decide)

end Threads
